import Mathlib

/-!
# Verification of the data-analysis dashboard (`dashboardbikesharing.py`)

A shallow embedding of the dashboard script: the in-memory table
(`DataFrame`), the summary reporter (`missing_data`), the CSV download
(`to_csv` / `read_csv` at the field level), the cached data loader
(`load_data` under `st.cache_data` semantics), the column classifier
(`numeric_columns` / `categorical_columns`), the correlation view
(pandas `corr` with pairwise deletion), and the custom-plot renderer
(Scatter / Line / Bar / Box).

Cells are `Option Val`: `none` models a missing value (NaN in pandas),
`Val.num` a numeric value (rationals idealise floats), `Val.str` a string.
-/

namespace Dashboard

/-- A cell value of the table: a number or a string. -/
inductive Val
  | num (q : ℚ)
  | str (s : String)
  deriving DecidableEq, Repr

/-- pandas dtypes that matter to the script: the classifier at lines 73-74
selects `float64`/`int64` as numeric and `object`/`category` as
categorical; the other constructors model dtypes outside both sets. -/
inductive Dtype
  | float64
  | int64
  | float32
  | int32
  | boolType
  | datetime64
  | objectType
  | categoryType
  deriving DecidableEq, Repr

/-- A named, typed column with its cells (`none` = missing / NaN). -/
structure Column where
  name : String
  dtype : Dtype
  cells : List (Option Val)
  deriving DecidableEq, Repr

/-- A DataFrame: an ordered list of columns. -/
structure DataFrame where
  cols : List Column
  deriving DecidableEq, Repr

/-- Embeds `len(df)`: the number of rows (length of any column; 0 when empty). -/
def DataFrame.nRows (df : DataFrame) : Nat :=
  match df.cols with
  | [] => 0
  | c :: _ => c.cells.length

/-- The column names, in order (`df.columns`). -/
def DataFrame.colNames (df : DataFrame) : List String :=
  df.cols.map (fun c => c.name)

/-- Column lookup by name (`df[name]`). -/
def DataFrame.getCol (df : DataFrame) (name : String) : Option Column :=
  df.cols.find? (fun c => c.name = name)

/-- Well-formedness: every column has `nRows` cells and names are unique
(spec: "column names unique"). -/
def DataFrame.WF (df : DataFrame) : Prop :=
  (∀ c ∈ df.cols, c.cells.length = df.nRows) ∧ df.colNames.Nodup

instance (df : DataFrame) : Decidable df.WF := by
  unfold DataFrame.WF; infer_instance

/-- The numeric reading of a column's cells: numbers kept, everything
else (missing or non-numeric) is `none` (NaN). -/
def Column.numCells (c : Column) : List (Option ℚ) :=
  c.cells.map (fun v =>
    match v with
    | some (.num q) => some q
    | _ => none)

/-- The string reading of a column's cells: strings kept, everything
else is `none` (NaN). -/
def Column.strCells (c : Column) : List (Option String) :=
  c.cells.map (fun v =>
    match v with
    | some (.str s) => some s
    | _ => none)

/-! ## Rounding (numpy `.round(2)` / Python `:.2f`: round half to even) -/

/-- Round a rational to the nearest integer, ties to even
(numpy / Python banker's rounding). -/
def roundHalfEven (q : ℚ) : ℤ :=
  let f : ℤ := ⌊q⌋
  let r : ℚ := q - f
  if r < 1/2 then f
  else if 1/2 < r then f + 1
  else if f % 2 = 0 then f else f + 1

/-- Embeds `.round(2)`: round to two decimal places, ties to even. -/
def round2 (q : ℚ) : ℚ := (roundHalfEven (q * 100) : ℚ) / 100

/-- Round a real to the nearest integer, ties to even (for displayed
`:.2f` values derived from a square root). -/
noncomputable def roundHalfEvenReal (x : ℝ) : ℤ :=
  let f : ℤ := ⌊x⌋
  let r : ℝ := x - f
  if r < 1/2 then f
  else if 1/2 < r then f + 1
  else if f % 2 = 0 then f else f + 1

/-- Rounding of `:.2f` on a real value. -/
noncomputable def round2Real (x : ℝ) : ℝ := (roundHalfEvenReal (x * 100) : ℝ) / 100

/-! ## Column classification (lines 73-74) -/

/-- Membership test of `select_dtypes(include=['float64', 'int64'])`. -/
def Dtype.isNumeric : Dtype → Bool
  | .float64 => true
  | .int64 => true
  | _ => false

/-- Membership test of `select_dtypes(include=['object', 'category'])`. -/
def Dtype.isCategorical : Dtype → Bool
  | .objectType => true
  | .categoryType => true
  | _ => false

/-- The numeric columns themselves (in dataframe order). -/
def DataFrame.numericCols (df : DataFrame) : List Column :=
  df.cols.filter (fun c => c.dtype.isNumeric)

/-- Embeds `numeric_columns = df.select_dtypes(include=['float64','int64']).columns.tolist()`. -/
def numeric_columns (df : DataFrame) : List String :=
  df.numericCols.map (fun c => c.name)

/-- The categorical columns themselves (in dataframe order). -/
def DataFrame.categoricalCols (df : DataFrame) : List Column :=
  df.cols.filter (fun c => c.dtype.isCategorical)

/-- Embeds `categorical_columns = df.select_dtypes(include=['object','category']).columns.tolist()`. -/
def categorical_columns (df : DataFrame) : List String :=
  df.categoricalCols.map (fun c => c.name)

/-! ## Summary reporter: the missing-value table (lines 62-66) -/

/-- Embeds `df[col].isnull().sum()`: number of missing cells in one column. -/
def countNull (c : Column) : Nat := c.cells.countP (fun v => v.isNone)

/-- The missing-value table built at lines 62-66: one row per column
with the column name, `isnull().sum()`, and
`(isnull().sum() / len(df) * 100).round(2)`. -/
def missing_data (df : DataFrame) : List (String × Nat × ℚ) :=
  df.cols.map (fun c =>
    (c.name, countNull c, round2 ((countNull c : ℚ) / (df.nRows : ℚ) * 100)))

/-! ## CSV download (lines 45-50): `df.to_csv()` and its re-parse

The download button serializes `df.to_csv()` (pandas default:
`index=True`), i.e. a header record `"" :: column names` followed by one
record per row, each beginning with the row index. We embed the CSV at
the field level — a `List (List String)` of records — since joining
fields with commas and records with newlines is a bijection as long as
no rendered field contains a comma or newline, which numeric renderings
never do. Rendering and parsing of an individual cell is a parameter
(`CsvCodec`): it stands for pandas float/string formatting, about which
the round-trip theorems assume only that parsing inverts rendering on
the cells that actually occur. -/

/-- Cell-level rendering/parsing used by the CSV layer. `rend none`
models the empty field pandas writes for NaN; `parse` models
`read_csv` type inference on one field. `rendIdx` renders a row index. -/
structure CsvCodec where
  rend : Option Val → String
  rendIdx : Nat → String
  parse : String → Option Val

/-- Embeds `df.to_csv()` at the field level: header record `"" :: names`, then
for each row `i` the record `index :: cells of row i` (missing cells
become whatever `rend none` is, the empty field for pandas). -/
def to_csv (k : CsvCodec) (df : DataFrame) : List (List String) :=
  ("" :: df.colNames) ::
    (List.range df.nRows).map (fun i =>
      k.rendIdx i :: df.cols.map (fun c => k.rend (c.cells.getD i none)))

/-- Header handling of `read_csv`: an empty header field at position `j`
becomes `Unnamed: j`. -/
def fillUnnamed (j : Nat) : List String → List String
  | [] => []
  | s :: t => (if s = "" then "Unnamed: " ++ toString j else s) :: fillUnnamed (j + 1) t

/-- Embeds `pd.read_csv` at the field level (for records of equal width, which
is what `to_csv` produces): the first record is the header, each later
record is a row; the result is the list of (column name, cells). -/
def read_csv (k : CsvCodec) (recs : List (List String)) : List (String × List (Option Val)) :=
  match recs with
  | [] => []
  | header :: body =>
    (fillUnnamed 0 header).enum.map (fun p =>
      (p.2, body.map (fun r => k.parse (r.getD p.1 ""))))

/-! ## Cached data loader (lines 25-38)

`load_data` reads the module-level `uploaded_file` but takes no
parameters. `st.cache_data` keys the cache on the function's arguments,
so the key is the same on every call: the first computed DataFrame is
returned on every later render pass regardless of the upload state.
We model one render pass as a call through the cache. The placeholder
`np.random.randn(100, 5)` DataFrame is a parameter (it is generated
without a seed), and an upload is modelled by the DataFrame
`pd.read_csv` would produce from it. -/

/-- The body of `load_data`: the uploaded file's table when a file is
present, otherwise the generated placeholder. -/
def load_data (uploaded : Option DataFrame) (placeholder : DataFrame) : DataFrame :=
  match uploaded with
  | some f => f
  | none => placeholder

/-- Embeds `st.cache_data` semantics for a zero-argument function: return the
cached value when present, otherwise compute and cache. Returns the
value and the updated cache. -/
def cachedCall (cache : Option DataFrame) (compute : Unit → DataFrame) :
    DataFrame × Option DataFrame :=
  match cache with
  | some d => (d, some d)
  | none =>
    let d := compute ()
    (d, some d)

/-- One render pass of the script: `df = load_data()` through the cache,
with the current upload state and the placeholder the generator would
produce on a cache miss. -/
def renderPass (cache : Option DataFrame) (uploaded : Option DataFrame)
    (placeholder : DataFrame) : DataFrame × Option DataFrame :=
  cachedCall cache (fun _ => load_data uploaded placeholder)

/-! ## Column statistics (lines 93-95): pandas skips NaN -/

/-- The non-missing values of a column reading. -/
def dropNone (xs : List (Option ℚ)) : List ℚ := xs.filterMap id

/-- Arithmetic mean of a list of rationals (0 for the empty list, which
callers guard against). -/
def qmean (l : List ℚ) : ℚ := l.sum / (l.length : ℚ)

/-- Sum of squared deviations from the mean. -/
def sqDev (l : List ℚ) : ℚ := (l.map (fun x => (x - qmean l) ^ 2)).sum

/-- Embeds `Series.mean()`: mean of the non-missing values, NaN when there are
none. -/
def colMean (xs : List (Option ℚ)) : Option ℚ :=
  let v := dropNone xs
  if v.length = 0 then none else some (qmean v)

/-- Embeds `Series.median()`: middle of the sorted non-missing values, the
average of the two middles for an even count, NaN when there are none. -/
def colMedian (xs : List (Option ℚ)) : Option ℚ :=
  let v := (dropNone xs).insertionSort (· ≤ ·)
  let n := v.length
  if n = 0 then none
  else if n % 2 = 1 then some (v.getD (n / 2) 0)
  else some ((v.getD (n / 2 - 1) 0 + v.getD (n / 2) 0) / 2)

/-- Embeds `Series.std()` (sample standard deviation, `ddof=1`): NaN for fewer
than two non-missing values. -/
noncomputable def colStd (xs : List (Option ℚ)) : Option ℝ :=
  let v := dropNone xs
  if v.length ≤ 1 then none
  else some (Real.sqrt ((sqDev v : ℚ) / ((v.length : ℚ) - 1)))

/-! ## Correlation (lines 100-107): pandas `DataFrame.corr`

pandas computes each entry over the rows where both columns are
non-missing (pairwise deletion): with `sxy`, `sxx`, `syy` the deviation
sums over that subset, the entry is `sxy / sqrt(sxx * syy)`, and NaN
(here `none`) when there are no such rows or the divisor is zero —
notably on the diagonal of a constant column. -/

/-- The rows where both readings are non-missing. -/
def validPairs (xs ys : List (Option ℚ)) : List (ℚ × ℚ) :=
  (xs.zip ys).filterMap (fun p =>
    match p with
    | (some a, some b) => some (a, b)
    | _ => none)

/-- The cross-deviation sum `Σ (x - mean x)(y - mean y)` over the valid
pairs. -/
def crossDev (ps : List (ℚ × ℚ)) : ℚ :=
  (ps.map (fun p =>
    (p.1 - qmean (ps.map Prod.fst)) * (p.2 - qmean (ps.map Prod.snd)))).sum

/-- One entry of `df[numeric_columns].corr()`: `sxy / sqrt(sxx * syy)`
over the pairwise-complete rows, NaN when there are none or the divisor
vanishes. -/
noncomputable def nancorr (xs ys : List (Option ℚ)) : Option ℝ :=
  let ps := validPairs xs ys
  if ps.length = 0 then none
  else if sqDev (ps.map Prod.fst) * sqDev (ps.map Prod.snd) = 0 then none
  else some ((crossDev ps : ℝ) /
    Real.sqrt ((sqDev (ps.map Prod.fst) : ℚ) * (sqDev (ps.map Prod.snd) : ℚ)))

/-- Embeds `correlation_matrix = df[numeric_columns].corr()`: one row and one
column per numeric column, in classifier order. -/
noncomputable def correlation_matrix (df : DataFrame) : List (List (Option ℝ)) :=
  df.numericCols.map (fun x =>
    df.numericCols.map (fun y => nancorr x.numCells y.numCells))

/-- The Correlation tab (lines 100-107): the heatmap's matrix when more
than one numeric column exists, otherwise the guidance message. -/
noncomputable def renderCorrelation (df : DataFrame) :
    Sum String (List (List (Option ℝ))) :=
  if 1 < (numeric_columns df).length then Sum.inr (correlation_matrix df)
  else Sum.inl "Need at least two numeric columns for correlation analysis."

/-! ## Bar-chart aggregation (line 141): `df.groupby(x_col)[y_col].mean()`

pandas drops rows whose group key is missing, sorts the group keys
ascending (`sort=True`), and takes the NaN-skipping mean of the value
column within each group (NaN when a group has no non-missing value). -/

/-- The distinct non-missing group keys, sorted ascending. -/
def groupKeys (ks : List (Option String)) : List String :=
  ((ks.filterMap id).dedup).insertionSort (· ≤ ·)

/-- The mean of the value column over the rows of one group, skipping
missing values; NaN (`none`) when no row of the group has a value. -/
def groupMean (catc : List (Option String)) (valc : List (Option ℚ)) (key : String) :
    Option ℚ :=
  let vs := (catc.zip valc).filterMap (fun p =>
    match p with
    | (some c, some v) => if c = key then some v else none
    | _ => none)
  if vs.length = 0 then none else some (qmean vs)

/-- Embeds `df.groupby(x_col)[y_col].mean().reset_index()`: one (key, mean) row
per distinct group key, keys ascending. -/
def groupby_mean (catc : List (Option String)) (valc : List (Option ℚ)) :
    List (String × Option ℚ) :=
  (groupKeys catc).map (fun key => (key, groupMean catc valc key))

/-! ## Custom Plot tab (lines 109-165) -/

/-- The numeric cells of the column with the given name (empty when the
name is absent). -/
def colNumCellsByName (df : DataFrame) (name : String) : List (Option ℚ) :=
  ((df.getCol name).map Column.numCells).getD []

/-- The string cells of the column with the given name (empty when the
name is absent). -/
def colStrCellsByName (df : DataFrame) (name : String) : List (Option String) :=
  ((df.getCol name).map Column.strCells).getD []

/-- Embeds `pd.melt(df[selected_cols])`: stack the chosen columns into
(column name, value) pairs, column by column. -/
def meltCells (df : DataFrame) (names : List String) : List (String × Option ℚ) :=
  names.flatMap (fun n => (colNumCellsByName df n).map (fun v => (n, v)))

/-- The four options of the plot-type selectbox (line 113). -/
inductive PlotType
  | scatter
  | line
  | bar
  | box
  deriving DecidableEq, Repr

/-- The widget state of the Custom Plot tab: one slot per widget key in
the source (`x_col`, `y_col`, `line_cols`, `bar_x`, `bar_y`,
`bar_y_only`, `box_cols`). -/
structure Selection where
  plot_type : PlotType
  x_col : String
  y_col : String
  line_cols : List String
  bar_x : String
  bar_y : String
  bar_y_only : String
  box_cols : List String
  deriving DecidableEq, Repr

/-- A selectbox only returns one of its options and a multiselect a
subset of them, so a reachable widget state satisfies this. -/
def Selection.valid (df : DataFrame) (sel : Selection) : Prop :=
  sel.x_col ∈ numeric_columns df ∧
  sel.y_col ∈ numeric_columns df ∧
  (∀ n ∈ sel.line_cols, n ∈ numeric_columns df) ∧
  (categorical_columns df ≠ [] → sel.bar_x ∈ categorical_columns df) ∧
  sel.bar_y ∈ numeric_columns df ∧
  sel.bar_y_only ∈ numeric_columns df ∧
  (∀ n ∈ sel.box_cols, n ∈ numeric_columns df)

instance (df : DataFrame) (sel : Selection) : Decidable (sel.valid df) := by
  unfold Selection.valid; infer_instance

/-- The one chart a render pass of the Custom Plot tab produces. Each
constructor records the titles and the data handed to the plotting
call. -/
inductive Chart
  | scatterChart (xName yName title : String) (pts : List (Option ℚ × Option ℚ))
  | lineChart (colNames : List String) (series : List (List (Option ℚ)))
  | barChart (xName yName title : String) (data : List (String × Option ℚ))
  | barRawChart (yName title : String) (vals : List (Option ℚ))
  | boxChart (colNames : List String) (melted : List (String × Option ℚ))
  deriving DecidableEq, Repr

/-- The Custom Plot tab (lines 112-165): `none` means the pass renders
no chart. The branch structure mirrors the source's `if`/`elif` chain;
a Scatter selection with fewer than two numeric columns falls through
every branch and renders nothing. -/
def renderCustomPlot (df : DataFrame) (sel : Selection) : Option Chart :=
  let ncs := numeric_columns df
  let ccs := categorical_columns df
  if ncs = [] then none
  else if sel.plot_type = .scatter ∧ 2 ≤ ncs.length then
    some (.scatterChart sel.x_col sel.y_col (sel.y_col ++ " vs " ++ sel.x_col)
      ((colNumCellsByName df sel.x_col).zip (colNumCellsByName df sel.y_col)))
  else if sel.plot_type = .line then
    if sel.line_cols = [] then none
    else some (.lineChart sel.line_cols (sel.line_cols.map (colNumCellsByName df)))
  else if sel.plot_type = .bar then
    if ccs ≠ [] then
      some (.barChart sel.bar_x sel.bar_y ("Average " ++ sel.bar_y ++ " by " ++ sel.bar_x)
        (groupby_mean (colStrCellsByName df sel.bar_x) (colNumCellsByName df sel.bar_y)))
    else
      some (.barRawChart sel.bar_y_only ("Bar Plot of " ++ sel.bar_y_only)
        (colNumCellsByName df sel.bar_y_only))
  else if sel.plot_type = .box then
    if sel.box_cols = [] then none
    else some (.boxChart sel.box_cols (meltCells df sel.box_cols))
  else none

/-- The default of the Y-axis selectbox (line 117):
`index=1 if len(numeric_columns) > 1 else 0`. -/
def defaultScatterY (ncs : List String) : String :=
  if 1 < ncs.length then ncs.getD 1 "" else ncs.getD 0 ""

/-- The widget defaults of the Custom Plot tab: every selectbox defaults
to its first option except the Y axis (line 117), and both multiselects
default to the first numeric column. -/
def default_selection (df : DataFrame) (pt : PlotType) : Selection :=
  let ncs := numeric_columns df
  let ccs := categorical_columns df
  { plot_type := pt
    x_col := ncs.getD 0 ""
    y_col := defaultScatterY ncs
    line_cols := [ncs.getD 0 ""]
    bar_x := ccs.getD 0 ""
    bar_y := ncs.getD 0 ""
    bar_y_only := ncs.getD 0 ""
    box_cols := [ncs.getD 0 ""] }

/-! ## Distribution tab (lines 79-95) -/

/-- What the Distribution tab displays for the selected column: the
histogram (its data and the `kde=True` density overlay) and the three
statistics lines, each already rounded to two decimal places as the
`:.2f` format strings do. -/
structure DistReport where
  histColumn : String
  histValues : List (Option ℚ)
  kdeOverlay : Bool
  title : String
  meanLine : Option ℚ
  medianLine : Option ℚ
  stdLine : Option ℝ

/-- The Distribution tab (lines 82-95): nothing is rendered when no
numeric column exists; otherwise the histogram of the selected column
with `kde=True` and the mean/median/std lines formatted with `:.2f`. -/
noncomputable def renderDistribution (df : DataFrame) (selected_column : String) :
    Option DistReport :=
  if numeric_columns df = [] then none
  else
    let cells := colNumCellsByName df selected_column
    some
      { histColumn := selected_column
        histValues := cells
        kdeOverlay := true
        title := "Distribution of " ++ selected_column
        meanLine := (colMean cells).map round2
        medianLine := (colMedian cells).map round2
        stdLine := (colStd cells).map round2Real }

instance : Inhabited Column := ⟨⟨"", .float64, []⟩⟩

/-! ## Concrete tables used by witnesses and counterexamples -/

/-- A small numeric table with a missing cell: columns `A` (3 values)
and `B` (one missing). -/
def exDfMissing : DataFrame :=
  ⟨[⟨"A", .float64, [some (.num 1), some (.num 2), some (.num 3)]⟩,
    ⟨"B", .float64, [some (.num 5), none, some (.num 7)]⟩]⟩

/-- Five numeric columns `A`..`E`, as in the generated placeholder. -/
def exDfFive : DataFrame :=
  ⟨[⟨"A", .float64, [some (.num 1), some (.num 2)]⟩,
    ⟨"B", .float64, [some (.num 3), some (.num 5)]⟩,
    ⟨"C", .float64, [some (.num 0), some (.num 1)]⟩,
    ⟨"D", .float64, [some (.num 2), some (.num 2)]⟩,
    ⟨"E", .float64, [some (.num 4), some (.num 0)]⟩]⟩

/-- Two numeric columns where `A` is constant: pandas `corr` puts NaN in
`A`'s row and column, including the diagonal. -/
def exDfConst : DataFrame :=
  ⟨[⟨"A", .float64, [some (.num 1), some (.num 1)]⟩,
    ⟨"B", .float64, [some (.num 1), some (.num 2)]⟩]⟩

/-- The spec's bar-chart example: `cat = ["x","x","y"]`,
`val = [10,20,30]`. -/
def exDfCat : DataFrame :=
  ⟨[⟨"cat", .objectType, [some (.str "x"), some (.str "x"), some (.str "y")]⟩,
    ⟨"val", .float64, [some (.num 10), some (.num 20), some (.num 30)]⟩]⟩

/-- A table with a single numeric column. -/
def exDfOneNum : DataFrame :=
  ⟨[⟨"A", .float64, [some (.num 1), some (.num 2)]⟩]⟩

/-- A table with no numeric column at all. -/
def exDfNoNum : DataFrame :=
  ⟨[⟨"tag", .objectType, [some (.str "u"), some (.str "v")]⟩]⟩

/-! ## C1: the missing-value table -/

/-- C1: for every loaded dataset the missing-value table has one row per
column, and row `i` carries the `i`-th column's name, its null count,
and `round(missing_count / row_count * 100, 2)`, where the null count is
the number of missing cells of that column and the row count is the
number of rows of the dataset. -/
theorem claim_C1 (df : DataFrame) :
    (missing_data df).length = df.cols.length ∧
    ∀ i, i < df.cols.length →
      (missing_data df).getD i ("", 0, 0) =
        ((df.cols.getD i default).name,
         ((df.cols.getD i default).cells.filter (fun v => v.isNone)).length,
         round2 ((((df.cols.getD i default).cells.filter (fun v => v.isNone)).length : ℚ) /
           (df.nRows : ℚ) * 100)) := by
  constructor
  · simp [missing_data]
  · intro i h
    rw [List.getD_eq_getElem?_getD, List.getD_eq_getElem?_getD]
    simp [missing_data, List.getElem?_map, List.getElem?_eq_getElem h, countNull,
      List.countP_eq_length_filter]

/-- C1 witness: the table of `exDfMissing`, whose column `B` has one of
three cells missing, as computed through the theorem. -/
theorem claim_C1_witness :
    (missing_data exDfMissing).length = exDfMissing.cols.length ∧
    (missing_data exDfMissing).getD 1 ("", 0, 0) =
      ((exDfMissing.cols.getD 1 default).name,
       ((exDfMissing.cols.getD 1 default).cells.filter (fun v => v.isNone)).length,
       round2 ((((exDfMissing.cols.getD 1 default).cells.filter (fun v => v.isNone)).length : ℚ) /
         (exDfMissing.nRows : ℚ) * 100)) :=
  ⟨(claim_C1 exDfMissing).1, (claim_C1 exDfMissing).2 1 (by decide)⟩

/-! ## C10: dtype classification -/

/-- A table mixing a numeric, a categorical and a boolean column. -/
def exDfMixed : DataFrame :=
  ⟨[⟨"num", .float64, [some (.num 1)]⟩,
    ⟨"cat", .objectType, [some (.str "u")]⟩,
    ⟨"flag", .boolType, [some (.num 1)]⟩]⟩

lemma isNumeric_iff (d : Dtype) : d.isNumeric = true ↔ d = .float64 ∨ d = .int64 := by
  cases d <;> simp [Dtype.isNumeric]

lemma isCategorical_iff (d : Dtype) :
    d.isCategorical = true ↔ d = .objectType ∨ d = .categoryType := by
  cases d <;> simp [Dtype.isCategorical]

/-- C10: under unique column names, a column's name is offered as
numeric exactly when its dtype is `float64` or `int64`, as categorical
exactly when its dtype is `object` or `category` — so a column of any
other dtype is in neither list — and the correlation matrix has exactly
one row per numeric column. -/
theorem claim_C10 (df : DataFrame) (hN : df.colNames.Nodup)
    (c : Column) (hc : c ∈ df.cols) :
    (c.name ∈ numeric_columns df ↔ c.dtype = .float64 ∨ c.dtype = .int64) ∧
    (c.name ∈ categorical_columns df ↔ c.dtype = .objectType ∨ c.dtype = .categoryType) ∧
    (correlation_matrix df).length = (numeric_columns df).length := by
  have hinj : ∀ x ∈ df.cols, ∀ y ∈ df.cols, x.name = y.name → x = y :=
    List.inj_on_of_nodup_map hN
  refine ⟨⟨fun h => ?_, fun h => ?_⟩, ⟨fun h => ?_, fun h => ?_⟩, ?_⟩
  · obtain ⟨c', hc', hname⟩ := List.mem_map.mp h
    obtain ⟨hc'cols, hp⟩ := List.mem_filter.mp hc'
    have : c' = c := hinj _ hc'cols _ hc hname
    exact (isNumeric_iff c.dtype).mp (this ▸ hp)
  · exact List.mem_map.mpr ⟨c,
      List.mem_filter.mpr ⟨hc, (isNumeric_iff c.dtype).mpr h⟩, rfl⟩
  · obtain ⟨c', hc', hname⟩ := List.mem_map.mp h
    obtain ⟨hc'cols, hp⟩ := List.mem_filter.mp hc'
    have : c' = c := hinj _ hc'cols _ hc hname
    exact (isCategorical_iff c.dtype).mp (this ▸ hp)
  · exact List.mem_map.mpr ⟨c,
      List.mem_filter.mpr ⟨hc, (isCategorical_iff c.dtype).mpr h⟩, rfl⟩
  · simp [correlation_matrix, numeric_columns]

/-- C10 witness: in the mixed table the `bool` column is classified as
neither numeric nor categorical. -/
theorem claim_C10_witness :
    (("flag" : String) ∈ numeric_columns exDfMixed ↔
      Dtype.boolType = .float64 ∨ Dtype.boolType = .int64) ∧
    (("flag" : String) ∈ categorical_columns exDfMixed ↔
      Dtype.boolType = .objectType ∨ Dtype.boolType = .categoryType) ∧
    (correlation_matrix exDfMixed).length = (numeric_columns exDfMixed).length :=
  claim_C10 exDfMixed (by decide) ⟨"flag", .boolType, [some (.num 1)]⟩ (by decide)

/-! ## C2: CSV download round-trip

`df.to_csv()` is called with the pandas default `index=True`, so the
serialized text has a leading index column with an empty header field;
`read_csv` turns that field into a column named `Unnamed: 0`. The
round-trip therefore reproduces the table **plus one extra column**. -/

/-- A cell codec for tables whose cells are only the numbers 0 and 1
(missing cells round-trip through the empty field, as in pandas). -/
def exCodec : CsvCodec :=
  { rend := fun c =>
      match c with
      | none => ""
      | some (.num q) => if q = 0 then "0" else if q = 1 then "1" else "?"
      | some (.str s) => s
    rendIdx := fun i => toString i
    parse := fun s =>
      if s = "0" then some (.num 0) else if s = "1" then some (.num 1) else none }

/-- A two-column table whose cells are only 0, 1 or missing. -/
def exDfBits : DataFrame :=
  ⟨[⟨"X", .float64, [some (.num 0), some (.num 1)]⟩,
    ⟨"Y", .float64, [some (.num 1), none]⟩]⟩

lemma fillUnnamed_of_ne {l : List String} (h : ∀ s ∈ l, s ≠ "") (j : Nat) :
    fillUnnamed j l = l := by
  induction l generalizing j with
  | nil => rfl
  | cons s t ih =>
    rw [fillUnnamed, if_neg (h s (List.mem_cons_self s t)), ih (fun x hx => h x (List.mem_cons_of_mem s hx))]

lemma getD_map_of_lt {α β : Type _} (f : α → β) (l : List α) (n : Nat)
    (h : n < l.length) (d : β) (d' : α) :
    (l.map f).getD n d = f (l.getD n d') := by
  rw [List.getD_eq_getElem _ _ (by simpa using h), List.getD_eq_getElem _ _ h,
    List.getElem_map]

lemma map_range_getD {α : Type _} (l : List α) (d : α) :
    (List.range l.length).map (fun i => l.getD i d) = l := by
  induction l with
  | nil => rfl
  | cons a t ih =>
    rw [List.length_cons, List.range_succ_eq_map, List.map_cons, List.map_map]
    have : (List.range t.length).map ((fun i => (a :: t).getD i d) ∘ Nat.succ) =
        (List.range t.length).map (fun i => t.getD i d) :=
      List.map_congr_left (fun i _ => by simp)
    rw [this, ih, List.getD_cons_zero]

/-- C2 counterexample: for the concrete table `exDfBits`, parsing the
serialized CSV yields an extra leading column `Unnamed: 0`, so the
result is not the table's columns and values. -/
theorem claim_C2_cex :
    (read_csv exCodec (to_csv exCodec exDfBits)).map Prod.fst =
      "Unnamed: 0" :: exDfBits.colNames ∧
    read_csv exCodec (to_csv exCodec exDfBits) ≠
      exDfBits.cols.map (fun c => (c.name, c.cells)) := by
  constructor
  · simp +decide [read_csv, to_csv, exCodec, exDfBits, fillUnnamed, DataFrame.colNames,
      DataFrame.nRows, List.range_succ]
  · intro h
    have := congrArg List.length h
    simp [read_csv, to_csv, exCodec, exDfBits, fillUnnamed, DataFrame.colNames,
      DataFrame.nRows] at this

/-- C2 amended: provided cell parsing inverts cell rendering on the
table's cells and on its row indices, and no column is named by the
empty string, the parsed download equals the extra index column
`Unnamed: 0` (holding 0, 1, 2, …) followed by exactly the table's
columns and values. -/
theorem claim_C2_amended (k : CsvCodec) (df : DataFrame) (hWF : df.WF)
    (hcells : ∀ c ∈ df.cols, ∀ v ∈ c.cells, k.parse (k.rend v) = v)
    (hidx : ∀ i, i < df.nRows → k.parse (k.rendIdx i) = some (.num (i : ℚ)))
    (hnm : ∀ n ∈ df.colNames, n ≠ "") :
    read_csv k (to_csv k df) =
      ("Unnamed: 0", (List.range df.nRows).map (fun i => some (.num (i : ℚ)))) ::
        df.cols.map (fun c => (c.name, c.cells)) := by
  obtain ⟨hlen, -⟩ := hWF
  have hfill : fillUnnamed 0 ("" :: df.colNames) = "Unnamed: 0" :: df.colNames := by
    rw [fillUnnamed, if_pos rfl, fillUnnamed_of_ne hnm]
    rfl
  rw [to_csv, read_csv, hfill]
  apply List.ext_getElem
  · simp [DataFrame.colNames]
  · intro i h1 h2
    rw [List.getElem_map, List.getElem_enum]
    cases i with
    | zero =>
      simp only [List.getElem_cons_zero, List.map_map]
      refine congrArg _ (List.map_congr_left fun i hi => ?_)
      simp only [Function.comp_apply, List.getD_cons_zero]
      exact hidx i (List.mem_range.mp hi)
    | succ j =>
      have hj : j < df.cols.length := by
        simpa [DataFrame.colNames] using h2
      simp only [List.getElem_cons_succ, List.getElem_map]
      have hj2 : j < df.colNames.length := by
        simpa [DataFrame.colNames] using hj
      have hname : df.colNames[j] = df.cols[j].name := by
        simp [DataFrame.colNames]
      refine Prod.ext hname ?_
      show ((List.range df.nRows).map _).map _ = df.cols[j].cells
      rw [List.map_map]
      have hcl : df.cols[j].cells.length = df.nRows :=
        hlen df.cols[j] (List.getElem_mem hj)
      have step : ∀ i ∈ List.range df.nRows,
          k.parse ((k.rendIdx i ::
            df.cols.map (fun c => k.rend (c.cells.getD i none))).getD (j + 1) "") =
          df.cols[j].cells.getD i none := by
        intro i hi
        have hiR : i < df.nRows := List.mem_range.mp hi
        have hcg : df.cols.getD j default = df.cols[j] := List.getD_eq_getElem _ _ hj
        rw [List.getD_cons_succ, getD_map_of_lt _ _ _ hj _ default, hcg]
        have hib : i < df.cols[j].cells.length := by rw [hcl]; exact hiR
        have hv : df.cols[j].cells.getD i none ∈ df.cols[j].cells := by
          rw [List.getD_eq_getElem _ _ hib]
          exact List.getElem_mem hib
        exact hcells df.cols[j] (List.getElem_mem hj) _ hv
      calc (List.range df.nRows).map _
          = (List.range df.nRows).map (fun i => df.cols[j].cells.getD i none) :=
            List.map_congr_left step
        _ = df.cols[j].cells := by rw [← hcl, map_range_getD]

/-- C2 witness: the amended round-trip at the concrete table
`exDfBits` with the 0/1 codec. -/
theorem claim_C2_witness :
    read_csv exCodec (to_csv exCodec exDfBits) =
      ("Unnamed: 0", (List.range exDfBits.nRows).map (fun i => some (Val.num (i : ℚ)))) ::
        exDfBits.cols.map (fun c => (c.name, c.cells)) :=
  claim_C2_amended exCodec exDfBits (by decide) (by decide)
    (by intro i hi
        simp only [exDfBits, DataFrame.nRows, List.length_cons, List.length_nil] at hi
        interval_cases i <;> simp +decide [exCodec])
    (by decide)

/-! ## C3: the cached loader ignores a changed upload

`load_data` takes no parameters, so the `st.cache_data` key never
changes: a warm cache short-circuits the call whatever the current
upload is. The first pass (no upload) caches the placeholder; a later
pass with a freshly uploaded file still returns the placeholder. -/

/-- C3: evaluating the loader at the failing interaction sequence —
pass 1 renders with no upload (the placeholder `exDfFive` is computed
and cached), pass 2 renders with the upload `exDfBits`: the second pass
returns the cached placeholder, not the uploaded table, although the
two tables differ. -/
theorem claim_C3_bug :
    (renderPass (renderPass none none exDfFive).2 (some exDfBits) exDfFive).1 =
      exDfFive ∧
    (renderPass (renderPass none none exDfFive).2 (some exDfBits) exDfFive).1 ≠
      exDfBits := by
  refine ⟨rfl, ?_⟩
  show exDfFive ≠ exDfBits
  decide

/-! ## C4: the correlation view -/

lemma validPairs_swap (xs ys : List (Option ℚ)) :
    validPairs ys xs = (validPairs xs ys).map Prod.swap := by
  induction xs generalizing ys with
  | nil => cases ys <;> rfl
  | cons x t ih =>
    cases ys with
    | nil => rfl
    | cons y u =>
      cases x <;> cases y <;>
        simp [validPairs, List.filterMap_cons, ih u] <;>
        simpa [validPairs] using ih u

lemma validPairs_self (xs : List (Option ℚ)) :
    validPairs xs xs = (dropNone xs).map (fun a => (a, a)) := by
  induction xs with
  | nil => rfl
  | cons x t ih =>
    cases x <;> simp [validPairs, dropNone, List.filterMap_cons] <;>
      simpa [validPairs, dropNone] using ih

lemma sqDev_nonneg (l : List ℚ) : 0 ≤ sqDev l := by
  apply List.sum_nonneg
  intro x hx
  obtain ⟨y, -, rfl⟩ := List.mem_map.mp hx
  positivity

/-- pandas `corr` is symmetric entry by entry. -/
lemma nancorr_symm (xs ys : List (Option ℚ)) : nancorr ys xs = nancorr xs ys := by
  unfold nancorr
  rw [validPairs_swap xs ys]
  simp only [List.length_map, List.map_map]
  have hfst : (validPairs xs ys).map (Prod.fst ∘ Prod.swap) =
      (validPairs xs ys).map Prod.snd := rfl
  have hsnd : (validPairs xs ys).map (Prod.snd ∘ Prod.swap) =
      (validPairs xs ys).map Prod.fst := rfl
  rw [hfst, hsnd]
  have hcross : crossDev ((validPairs xs ys).map Prod.swap) =
      crossDev (validPairs xs ys) := by
    unfold crossDev
    simp only [List.map_map, hfst, hsnd]
    exact congrArg List.sum (List.map_congr_left fun p _ => mul_comm _ _)
  rw [hcross, mul_comm (sqDev ((validPairs xs ys).map Prod.snd))
    (sqDev ((validPairs xs ys).map Prod.fst)),
    mul_comm ((sqDev ((validPairs xs ys).map Prod.snd) : ℚ) : ℝ)
    ((sqDev ((validPairs xs ys).map Prod.fst) : ℚ) : ℝ)]

/-- pandas `corr` has 1.0 on the diagonal whenever the column's valid
values have a nonzero squared-deviation sum. -/
lemma nancorr_self (xs : List (Option ℚ)) (h : sqDev (dropNone xs) ≠ 0) :
    nancorr xs xs = some 1 := by
  unfold nancorr
  rw [validPairs_self xs]
  simp only [List.map_map]
  have hid : (Prod.fst ∘ fun a : ℚ => (a, a)) = id := rfl
  have hid' : (Prod.snd ∘ fun a : ℚ => (a, a)) = id := rfl
  have hfst : (dropNone xs).map (Prod.fst ∘ fun a => (a, a)) = dropNone xs := by
    rw [hid, List.map_id]
  have hsnd : (dropNone xs).map (Prod.snd ∘ fun a => (a, a)) = dropNone xs := by
    rw [hid', List.map_id]
  rw [hfst, hsnd]
  have hne : ((dropNone xs).map (fun a => (a, a))).length ≠ 0 := by
    rw [List.length_map]
    intro h0
    rw [List.length_eq_zero.mp h0] at h
    exact h rfl
  rw [if_neg hne, if_neg (mul_ne_zero h h)]
  have hcross : crossDev ((dropNone xs).map (fun a => (a, a))) = sqDev (dropNone xs) := by
    unfold crossDev sqDev
    simp only [List.map_map, hfst, hsnd]
    refine congrArg List.sum (List.map_congr_left fun p _ => ?_)
    simp only [Function.comp_apply]
    ring
  rw [hcross]
  have h0 : (0 : ℝ) ≤ ((sqDev (dropNone xs) : ℚ) : ℝ) := by
    exact_mod_cast sqDev_nonneg (dropNone xs)
  have hsqrt : Real.sqrt (((sqDev (dropNone xs) : ℚ) : ℝ) * ((sqDev (dropNone xs) : ℚ) : ℝ)) =
      ((sqDev (dropNone xs) : ℚ) : ℝ) := Real.sqrt_mul_self h0
  rw [hsqrt]
  have hz : ((sqDev (dropNone xs) : ℚ) : ℝ) ≠ 0 := by exact_mod_cast h
  rw [div_self hz]

/-- The (i, j) entry of the rendered correlation matrix, with `none`
for out-of-range indices. -/
lemma corr_entry (df : DataFrame) (i j : Nat) :
    ((correlation_matrix df).getD i []).getD j none =
      if hi : i < df.numericCols.length then
        if hj : j < df.numericCols.length then
          nancorr df.numericCols[i].numCells df.numericCols[j].numCells
        else none
      else none := by
  by_cases hi : i < df.numericCols.length
  · have hrow : (correlation_matrix df).getD i [] =
        df.numericCols.map (fun y => nancorr df.numericCols[i].numCells y.numCells) := by
      rw [List.getD_eq_getElem _ _ (by simpa [correlation_matrix] using hi)]
      simp [correlation_matrix]
    rw [hrow]
    by_cases hj : j < df.numericCols.length
    · rw [List.getD_eq_getElem _ _ (by simpa using hj), List.getElem_map,
        dif_pos hi, dif_pos hj]
    · rw [List.getD_eq_default _ _ (by simpa using Nat.le_of_not_lt hj),
        dif_pos hi, dif_neg hj]
  · have hrow : (correlation_matrix df).getD i [] = [] :=
      List.getD_eq_default _ _
        (by simp only [correlation_matrix, List.length_map]; exact Nat.le_of_not_lt hi)
    rw [hrow, dif_neg hi]
    exact List.getD_eq_default _ _ (Nat.zero_le j)

/-- C4 (amended): with exactly one numeric column the Correlation view
shows the guidance message and no heatmap; with two or more it renders
the correlation matrix, which is symmetric, and whose diagonal entry is
1.0 for every numeric column whose present values have a nonzero
squared-deviation sum. (As stated the claim fails: for a constant — or
empty — numeric column pandas `corr` puts NaN on the diagonal, see
`claim_C4_cex`.) -/
theorem claim_C4_amended (df : DataFrame) :
    ((numeric_columns df).length = 1 →
      renderCorrelation df =
        Sum.inl "Need at least two numeric columns for correlation analysis.") ∧
    (2 ≤ (numeric_columns df).length →
      renderCorrelation df = Sum.inr (correlation_matrix df)) ∧
    (∀ i j : Nat, ((correlation_matrix df).getD i []).getD j none =
      ((correlation_matrix df).getD j []).getD i none) ∧
    (∀ i, (hi : i < df.numericCols.length) →
      sqDev (dropNone df.numericCols[i].numCells) ≠ 0 →
      ((correlation_matrix df).getD i []).getD i none = some 1) := by
  refine ⟨fun h1 => ?_, fun h2 => ?_, fun i j => ?_, fun i hi hs => ?_⟩
  · rw [renderCorrelation, if_neg (by omega)]
  · rw [renderCorrelation, if_pos (by omega)]
  · rw [corr_entry, corr_entry]
    by_cases hi : i < df.numericCols.length
    · by_cases hj : j < df.numericCols.length
      · rw [dif_pos hi, dif_pos hj, dif_pos hj, dif_pos hi]
        exact nancorr_symm _ _
      · rw [dif_pos hi, dif_neg hj, dif_neg hj]
    · rw [dif_neg hi]
      by_cases hj : j < df.numericCols.length
      · rw [dif_pos hj, dif_neg hi]
      · rw [dif_neg hj]
  · rw [corr_entry]
    simp only [hi, dif_pos]
    exact nancorr_self _ hs

/-- C4 counterexample: `exDfConst` has two numeric columns (so the
heatmap is rendered) but its first column is constant, and the (0,0)
diagonal entry of the rendered matrix is NaN (`none`), not 1.0. -/
theorem claim_C4_cex :
    1 < (numeric_columns exDfConst).length ∧
    renderCorrelation exDfConst = Sum.inr (correlation_matrix exDfConst) ∧
    ((correlation_matrix exDfConst).getD 0 []).getD 0 none ≠ some 1 := by
  have hps : validPairs [some (1 : ℚ), some 1] [some (1 : ℚ), some 1] =
      [(1, 1), (1, 1)] := rfl
  have hnone : nancorr [some (1 : ℚ), some 1] [some (1 : ℚ), some 1] = none := by
    unfold nancorr
    rw [hps]
    norm_num [sqDev, qmean]
  refine ⟨by decide, ?_, ?_⟩
  · rw [renderCorrelation, if_pos (by decide)]
  · rw [corr_entry]
    have hi : 0 < exDfConst.numericCols.length := by decide
    simp only [hi, dif_pos]
    have : exDfConst.numericCols[0].numCells = [some (1 : ℚ), some 1] := by
      simp [exDfConst, DataFrame.numericCols, Dtype.isNumeric, Column.numCells]
    rw [this, hnone]
    simp

/-- C4 witness: on the five-column table `exDfFive` the (0,1) and (1,0)
entries agree, the (0,0) diagonal entry is 1.0, and the heatmap branch
is taken. -/
theorem claim_C4_witness :
    ((correlation_matrix exDfFive).getD 0 []).getD 1 none =
      ((correlation_matrix exDfFive).getD 1 []).getD 0 none ∧
    ((correlation_matrix exDfFive).getD 0 []).getD 0 none = some 1 ∧
    renderCorrelation exDfFive = Sum.inr (correlation_matrix exDfFive) :=
  ⟨(claim_C4_amended exDfFive).2.2.1 0 1,
   (claim_C4_amended exDfFive).2.2.2 0 (by decide)
     (by norm_num [exDfFive, DataFrame.numericCols, Dtype.isNumeric, Column.numCells,
       dropNone, sqDev, qmean, List.filterMap_cons]),
   (claim_C4_amended exDfFive).2.1 (by decide)⟩

/-! ## C5: the Bar chart -/

/-- A reachable widget state selecting the Bar plot on `exDfCat`. -/
def exSelBar : Selection :=
  { plot_type := .bar
    x_col := "val"
    y_col := "val"
    line_cols := ["val"]
    bar_x := "cat"
    bar_y := "val"
    bar_y_only := "val"
    box_cols := ["val"] }

lemma groupby_mean_keys (catc : List (Option String)) (valc : List (Option ℚ)) :
    (groupby_mean catc valc).map Prod.fst = groupKeys catc := by
  rw [groupby_mean, List.map_map]
  exact List.map_id _

/-- C5: with a Bar selection, when a categorical column exists the
rendered chart aggregates `groupby(bar_x)[bar_y].mean()`; the group
labels are exactly the distinct present categories, sorted ascending,
each paired with the skip-missing mean of the value column over its
rows; the spec's concrete example evaluates to x→15.0, y→30.0; and with
no categorical column the chart falls back to the raw values of the
chosen numeric column. -/
theorem claim_C5 (df : DataFrame) (sel : Selection)
    (hbar : sel.plot_type = .bar) (hnum : numeric_columns df ≠ []) :
    (categorical_columns df ≠ [] →
      renderCustomPlot df sel =
        some (.barChart sel.bar_x sel.bar_y
          ("Average " ++ sel.bar_y ++ " by " ++ sel.bar_x)
          (groupby_mean (colStrCellsByName df sel.bar_x)
            (colNumCellsByName df sel.bar_y)))) ∧
    (categorical_columns df = [] →
      renderCustomPlot df sel =
        some (.barRawChart sel.bar_y_only ("Bar Plot of " ++ sel.bar_y_only)
          (colNumCellsByName df sel.bar_y_only))) ∧
    (∀ catc valc,
      List.Sorted (· ≤ ·) ((groupby_mean catc valc).map Prod.fst)) ∧
    (∀ catc valc (k : String),
      k ∈ (groupby_mean catc valc).map Prod.fst ↔ some k ∈ catc) ∧
    (∀ catc valc k m, (k, m) ∈ groupby_mean catc valc → m = groupMean catc valc k) ∧
    groupby_mean [some "x", some "x", some "y"] [some 10, some 20, some 30] =
      [("x", some 15), ("y", some 30)] := by
  refine ⟨fun hc => ?_, fun hc => ?_, fun catc valc => ?_, fun catc valc k => ?_,
    fun catc valc k m hm => ?_, ?_⟩
  · simp [renderCustomPlot, hbar, hnum, hc]
  · simp [renderCustomPlot, hbar, hnum, hc]
  · rw [groupby_mean_keys]
    exact List.sorted_insertionSort _ _
  · rw [groupby_mean_keys, groupKeys, List.mem_insertionSort, List.mem_dedup,
      List.mem_filterMap]
    constructor
    · rintro ⟨a, ha, rfl⟩
      exact ha
    · intro h
      exact ⟨some k, h, rfl⟩
  · obtain ⟨key, -, hkey⟩ := List.mem_map.mp hm
    obtain ⟨rfl, rfl⟩ := Prod.mk.injEq .. ▸ hkey
    rfl
  · simp +decide [groupby_mean, groupKeys, groupMean, qmean, List.insertionSort,
      List.orderedInsert, List.dedup, List.filterMap, List.zip, List.zipWith]
    norm_num

/-- C5 witness: the Bar selection on the spec's example table renders
the grouped-mean chart, whose data the theorem's concrete conjunct pins
to x→15.0, y→30.0. -/
theorem claim_C5_witness :
    renderCustomPlot exDfCat exSelBar =
      some (.barChart "cat" "val" "Average val by cat"
        (groupby_mean (colStrCellsByName exDfCat "cat")
          (colNumCellsByName exDfCat "val"))) :=
  (claim_C5 exDfCat exSelBar (by decide) (by decide)).1 (by decide)

/-! ## C6-C8: Custom Plot preconditions, scatter title and defaults -/

lemma renderCustomPlot_no_numeric (df : DataFrame) (sel : Selection)
    (h : numeric_columns df = []) : renderCustomPlot df sel = none := by
  simp [renderCustomPlot, h]

lemma renderCustomPlot_scatter_insufficient (df : DataFrame) (sel : Selection)
    (hs : sel.plot_type = .scatter) (h : (numeric_columns df).length < 2) :
    renderCustomPlot df sel = none := by
  by_cases hn : numeric_columns df = []
  · exact renderCustomPlot_no_numeric df sel hn
  · rw [renderCustomPlot]
    rw [if_neg hn, if_neg (fun hc => absurd hc.2 (by omega)),
      if_neg (by rw [hs]; decide), if_neg (by rw [hs]; decide),
      if_neg (by rw [hs]; decide)]

lemma renderCustomPlot_line_empty (df : DataFrame) (sel : Selection)
    (hl : sel.plot_type = .line) (h : sel.line_cols = []) :
    renderCustomPlot df sel = none := by
  by_cases hn : numeric_columns df = []
  · exact renderCustomPlot_no_numeric df sel hn
  · rw [renderCustomPlot]
    rw [if_neg hn, if_neg (fun hc => by rw [hl] at hc; exact absurd hc.1 (by decide)),
      if_pos hl, if_pos h]

lemma renderCustomPlot_box_empty (df : DataFrame) (sel : Selection)
    (hb : sel.plot_type = .box) (h : sel.box_cols = []) :
    renderCustomPlot df sel = none := by
  by_cases hn : numeric_columns df = []
  · exact renderCustomPlot_no_numeric df sel hn
  · rw [renderCustomPlot]
    rw [if_neg hn, if_neg (fun hc => by rw [hb] at hc; exact absurd hc.1 (by decide)),
      if_neg (by rw [hb]; decide), if_neg (by rw [hb]; decide),
      if_pos hb, if_pos h]

lemma renderCustomPlot_scatter_render (df : DataFrame) (sel : Selection)
    (hs : sel.plot_type = .scatter) (h2 : 2 ≤ (numeric_columns df).length) :
    renderCustomPlot df sel =
      some (.scatterChart sel.x_col sel.y_col (sel.y_col ++ " vs " ++ sel.x_col)
        ((colNumCellsByName df sel.x_col).zip (colNumCellsByName df sel.y_col))) := by
  have hn : numeric_columns df ≠ [] := by
    intro h
    rw [h] at h2
    exact absurd h2 (by decide)
  rw [renderCustomPlot]
  rw [if_neg hn, if_pos ⟨hs, h2⟩]

/-- C6: whenever a plot's precondition fails — no numeric columns at
all, a Scatter selection with fewer than two numeric columns, or a Line
or Box selection with an empty multiselect — the Custom Plot pass
renders no chart (and, the render being a total function, raises no
error). -/
theorem claim_C6 (df : DataFrame) (sel : Selection) :
    (numeric_columns df = [] → renderCustomPlot df sel = none) ∧
    (sel.plot_type = .scatter → (numeric_columns df).length < 2 →
      renderCustomPlot df sel = none) ∧
    (sel.plot_type = .line → sel.line_cols = [] → renderCustomPlot df sel = none) ∧
    (sel.plot_type = .box → sel.box_cols = [] → renderCustomPlot df sel = none) :=
  ⟨renderCustomPlot_no_numeric df sel,
   renderCustomPlot_scatter_insufficient df sel,
   renderCustomPlot_line_empty df sel,
   renderCustomPlot_box_empty df sel⟩

/-- C6 witness: no chart for a Bar selection on a table with no numeric
column, for a Scatter selection on a one-numeric-column table, and for
Line and Box selections with nothing selected. -/
theorem claim_C6_witness :
    renderCustomPlot exDfNoNum exSelBar = none ∧
    renderCustomPlot exDfOneNum
      { exSelBar with plot_type := .scatter, x_col := "A" } = none ∧
    renderCustomPlot exDfOneNum
      { exSelBar with plot_type := .line, line_cols := [] } = none ∧
    renderCustomPlot exDfOneNum
      { exSelBar with plot_type := .box, box_cols := [] } = none :=
  ⟨(claim_C6 exDfNoNum exSelBar).1 (by decide),
   (claim_C6 exDfOneNum _).2.1 (by decide) (by decide),
   (claim_C6 exDfOneNum _).2.2.1 (by decide) (by decide),
   (claim_C6 exDfOneNum _).2.2.2 (by decide) (by decide)⟩

/-- A reachable Scatter widget state on `exDfFive` selecting X = "A",
Y = "B". -/
def exSelScatterAB : Selection :=
  { plot_type := .scatter
    x_col := "A"
    y_col := "B"
    line_cols := ["A"]
    bar_x := ""
    bar_y := "A"
    bar_y_only := "A"
    box_cols := ["A"] }

/-- C7: a Scatter selection over at least two numeric columns renders a
chart titled `"<y_col> vs <x_col>"` on the selected columns' points. -/
theorem claim_C7 (df : DataFrame) (sel : Selection)
    (hs : sel.plot_type = .scatter) (h2 : 2 ≤ (numeric_columns df).length) :
    renderCustomPlot df sel =
      some (.scatterChart sel.x_col sel.y_col (sel.y_col ++ " vs " ++ sel.x_col)
        ((colNumCellsByName df sel.x_col).zip (colNumCellsByName df sel.y_col))) :=
  renderCustomPlot_scatter_render df sel hs h2

/-- C7 witness: X = "A", Y = "B" over the columns A..E yields the title
"B vs A". -/
theorem claim_C7_witness :
    renderCustomPlot exDfFive exSelScatterAB =
      some (.scatterChart "A" "B" "B vs A"
        ((colNumCellsByName exDfFive "A").zip (colNumCellsByName exDfFive "B"))) :=
  claim_C7 exDfFive exSelScatterAB (by decide) (by decide)

/-- C8: a Scatter selection produces a chart exactly when the dataset
has at least two numeric columns, and the Y-axis selectbox default is
the second numeric column when one exists, else the first. -/
theorem claim_C8 (df : DataFrame) (sel : Selection) (hs : sel.plot_type = .scatter) :
    ((∃ ch, renderCustomPlot df sel = some ch) ↔ 2 ≤ (numeric_columns df).length) ∧
    (∀ a b rest, numeric_columns df = a :: b :: rest →
      (default_selection df .scatter).y_col = b) ∧
    (∀ a, numeric_columns df = [a] → (default_selection df .scatter).y_col = a) := by
  refine ⟨⟨fun ⟨ch, hch⟩ => ?_, fun h2 => ?_⟩, fun a b rest h => ?_, fun a h => ?_⟩
  · by_contra hlt
    rw [renderCustomPlot_scatter_insufficient df sel hs (by omega)] at hch
    exact Option.noConfusion hch
  · exact ⟨_, renderCustomPlot_scatter_render df sel hs h2⟩
  · show defaultScatterY (numeric_columns df) = b
    rw [h, defaultScatterY, if_pos (by simp)]
    rfl
  · show defaultScatterY (numeric_columns df) = a
    rw [h, defaultScatterY, if_neg (by simp)]
    rfl

/-- C8 witness: on the five-column table a Scatter selection renders,
and the default Y axis is the second numeric column "B"; on the
one-column table the default Y axis falls back to "A". -/
theorem claim_C8_witness :
    ((∃ ch, renderCustomPlot exDfFive exSelScatterAB = some ch) ↔
      2 ≤ (numeric_columns exDfFive).length) ∧
    (default_selection exDfFive .scatter).y_col = "B" ∧
    (default_selection exDfOneNum .scatter).y_col = "A" :=
  ⟨(claim_C8 exDfFive exSelScatterAB (by decide)).1,
   (claim_C8 exDfFive exSelScatterAB (by decide)).2.1 "A" "B" ["C", "D", "E"] (by decide),
   (claim_C8 exDfOneNum exSelScatterAB (by decide)).2.2 "A" (by decide)⟩

/-! ## C9: the Distribution tab -/

/-- C9: with at least one numeric column, the Distribution tab renders
a histogram of the selected column with the density overlay enabled and
reports the column's mean, median and standard deviation, each rounded
to two decimal places. -/
theorem claim_C9 (df : DataFrame) (selected_column : String)
    (hn : numeric_columns df ≠ []) :
    ∃ r, renderDistribution df selected_column = some r ∧
      r.kdeOverlay = true ∧
      r.histColumn = selected_column ∧
      r.histValues = colNumCellsByName df selected_column ∧
      r.title = "Distribution of " ++ selected_column ∧
      r.meanLine = (colMean (colNumCellsByName df selected_column)).map round2 ∧
      r.medianLine = (colMedian (colNumCellsByName df selected_column)).map round2 ∧
      r.stdLine = (colStd (colNumCellsByName df selected_column)).map round2Real := by
  rw [renderDistribution, if_neg hn]
  exact ⟨_, rfl, rfl, rfl, rfl, rfl, rfl, rfl, rfl⟩

/-- C9 witness: the Distribution tab on column "A" of the five-column
table. -/
theorem claim_C9_witness :
    ∃ r, renderDistribution exDfFive "A" = some r ∧
      r.kdeOverlay = true ∧
      r.histColumn = "A" ∧
      r.histValues = colNumCellsByName exDfFive "A" ∧
      r.title = "Distribution of " ++ "A" ∧
      r.meanLine = (colMean (colNumCellsByName exDfFive "A")).map round2 ∧
      r.medianLine = (colMedian (colNumCellsByName exDfFive "A")).map round2 ∧
      r.stdLine = (colStd (colNumCellsByName exDfFive "A")).map round2Real :=
  claim_C9 exDfFive "A" (by decide)

end Dashboard
